import Mathlib

/-!
Shallow embedding of the EZID python client (repository `hardyoyo/ezid`).

The repository holds two historical versions of one module, `src/EZID.py`
(the newer one, using `requests` for login and `urllib` for the other
operations) and `src/EZID/EZID.py` (the older `urllib2` one, which adds a
`_MyHTTPErrorProcessor` passing HTTP status 201 through as success).  The
embedding below follows `src/EZID.py`, folding in the 201 handling of the
older file where the two agree on everything else.

Python strings are modelled as `List Char`.  Python dicts of strings are
modelled as association lists `List (List Char × List Char)` in iteration
order.  Fallible code returns `Option` / `Except`.  The network is an
oracle `Server : Request → HttpResponse`, and every client operation
returns the list of requests it issued together with its result, so that
temporal claims ("never issues a login request") become statements about
that trace.
-/

/-- `"%X" % n` for a nibble: one uppercase hexadecimal digit. -/
def hexDigitChar : Nat → Char
  | 0 => '0' | 1 => '1' | 2 => '2' | 3 => '3' | 4 => '4'
  | 5 => '5' | 6 => '6' | 7 => '7' | 8 => '8' | 9 => '9'
  | 10 => 'A' | 11 => 'B' | 12 => 'C' | 13 => 'D' | 14 => 'E'
  | _ => 'F'

/-- One step of `re.sub("[%:\r\n]", lambda c: "%%%02X" % ord(c.group(0)), k)`
from `formatAnvlFromDict` (`src/EZID.py` line 75): a key character is either
replaced by `%` plus its two-digit uppercase hex code point, or kept.
All four reserved characters have code points below 256, so `"%02X"` is
exactly the two nibbles. -/
def escapeKeyChar (c : Char) : List Char :=
  if c = '%' ∨ c = ':' ∨ c = '\r' ∨ c = '\n' then
    ['%', hexDigitChar (c.toNat / 16), hexDigitChar (c.toNat % 16)]
  else [c]

/-- One step of `re.sub("[%\r\n]", ...)` on a value character
(`src/EZID.py` line 76). -/
def escapeValueChar (c : Char) : List Char :=
  if c = '%' ∨ c = '\r' ∨ c = '\n' then
    ['%', hexDigitChar (c.toNat / 16), hexDigitChar (c.toNat % 16)]
  else [c]

/-- `re.sub` over the whole key: the character class matches single
characters, so the substitution is a per-character map. -/
def escapeKey (k : List Char) : List Char :=
  (k.map escapeKeyChar).flatten

/-- `re.sub` over the whole value. -/
def escapeValue (v : List Char) : List Char :=
  (v.map escapeValueChar).flatten

/-- `"%s: %s" % (label, value)` — one output line of the encoder. -/
def anvlLine (kv : List Char × List Char) : List Char :=
  escapeKey kv.1 ++ ':' :: ' ' :: escapeValue kv.2

/-- Python newline join of the collected lines. -/
def joinLines : List (List Char) → List Char
  | [] => []
  | [l] => l
  | l :: l2 :: ls => l ++ '\n' :: joinLines (l2 :: ls)

/-- `formatAnvlFromDict` (`src/EZID.py` lines 66–78): escape each key and
value, produce a `key: value` line per entry, join with `"\n"`. -/
def formatAnvlFromDict (d : List (List Char × List Char)) : List Char :=
  joinLines (d.map anvlLine)

/-- The loop body of `formatAnvlFromList` (`src/EZID.py` lines 80–92):
`range(0, len(l), 2)` walks the list two at a time, reading `l[i]` and
`l[i+1]`; a trailing singleton makes `l[i+1]` raise `IndexError`, which we
model as `none`. -/
def formatAnvlFromListLines : List (List Char) → Option (List (List Char))
  | [] => some []
  | [_] => none
  | k :: v :: rest => (formatAnvlFromListLines rest).map (anvlLine (k, v) :: ·)

/-- `formatAnvlFromList` itself. -/
def formatAnvlFromList (l : List (List Char)) : Option (List Char) :=
  (formatAnvlFromListLines l).map joinLines

/-- Follows the spec's words for the key escaping: every occurrence of
`%`, `:`, CR, LF is replaced by `%` followed by the character's two-digit
uppercase hexadecimal code point (`%` is 0x25, `:` is 0x3A, CR is 0x0D,
LF is 0x0A); all other characters pass through unmodified. -/
def specEscapeKeyChar (c : Char) : List Char :=
  if c = '%' then ['%', '2', '5']
  else if c = ':' then ['%', '3', 'A']
  else if c = '\r' then ['%', '0', 'D']
  else if c = '\n' then ['%', '0', 'A']
  else [c]

/-- Follows the spec's words for the value escaping: `%`, CR, LF only. -/
def specEscapeValueChar (c : Char) : List Char :=
  if c = '%' then ['%', '2', '5']
  else if c = '\r' then ['%', '0', 'D']
  else if c = '\n' then ['%', '0', 'A']
  else [c]

/-- Follows the spec's words for the whole encoder: one `key: value` line
per entry, lines joined with a single `\n`, no trailing newline. -/
def specFormatAnvlFromDict (d : List (List Char × List Char)) : List Char :=
  joinLines (d.map fun kv =>
    (kv.1.map specEscapeKeyChar).flatten ++ [':', ' '] ++ (kv.2.map specEscapeValueChar).flatten)

/-- Modelled from the spec: the value of a hexadecimal digit, used by the
decoder's `%XX` unescaping ("replacing each `%XX` escape by the character
with hex code `XX`"). -/
def hexDigitVal (c : Char) : Option Nat :=
  if '0' ≤ c ∧ c ≤ '9' then some (c.toNat - 48)
  else if 'A' ≤ c ∧ c ≤ 'F' then some (c.toNat - 55)
  else if 'a' ≤ c ∧ c ≤ 'f' then some (c.toNat - 87)
  else none

/-- Modelled from the spec: no decoder exists in the source (`src/EZID.py`
returns raw response text); the spec describes decoding as "replacing each
`%XX` escape by the character with hex code `XX`", scanning left to right.
A `%` not followed by two hex digits is kept literally. -/
def unescapeAnvl : List Char → List Char
  | [] => []
  | [c] => [c]
  | [c, d] => [c, d]
  | c :: d1 :: d2 :: rest =>
    if c = '%' then
      match hexDigitVal d1, hexDigitVal d2 with
      | some h1, some h2 => Char.ofNat (16 * h1 + h2) :: unescapeAnvl rest
      | _, _ => c :: unescapeAnvl (d1 :: d2 :: rest)
    else c :: unescapeAnvl (d1 :: d2 :: rest)

/-- Modelled from the spec: split a line at the first occurrence of the
two-character separator `": "`; `none` when the separator does not occur. -/
def splitFirstColonSpace : List Char → Option (List Char × List Char)
  | [] => none
  | c :: rest =>
    if c = ':' ∧ rest.head? = some ' ' then some ([], rest.tail)
    else (splitFirstColonSpace rest).map fun p => (c :: p.1, p.2)

/-- Modelled from the spec: the decoder for one ANVL line — split on the
first `": "`, then unescape both parts. -/
def decodeAnvlLine (line : List Char) : Option (List Char × List Char) :=
  (splitFirstColonSpace line).map fun p => (unescapeAnvl p.1, unescapeAnvl p.2)

/-- `.replace('success: ', '')` from `EZIDClient.mint` (`src/EZID.py`
line 231).  Python `str.replace` removes every leftmost non-overlapping
occurrence of the nine-character needle `"success: "`, scanning left to
right. -/
def replaceSuccessEmpty : List Char → List Char
  | 's' :: 'u' :: 'c' :: 'c' :: 'e' :: 's' :: 's' :: ':' :: ' ' :: rest =>
    replaceSuccessEmpty rest
  | c :: rest => c :: replaceSuccessEmpty rest
  | [] => []

/-- Python `str.isspace` characters in the ASCII range, as stripped by
`str.strip()` (the reserved characters of this protocol are all ASCII). -/
def isPySpace (c : Char) : Bool :=
  c = ' ' || c = '\t' || c = '\n' || c = '\r' || c = '\x0b' || c = '\x0c'

/-- Python `str.strip()`: drop whitespace from both ends. -/
def pyStrip (l : List Char) : List Char :=
  (((l.dropWhile isPySpace).reverse).dropWhile isPySpace).reverse

/-- The result transform of `EZIDClient.mint` (`src/EZID.py` line 231):
`self._get_request(request).replace('success: ','').strip()`. -/
def mintTransform (body : List Char) : List Char :=
  pyStrip (replaceSuccessEmpty body)

/-- Follows the amended wording for claim C3: remove every (leftmost,
non-overlapping) occurrence of the substring `"success: "`, written with
an explicit substring test instead of literal patterns. -/
def removeAllSuccess : List Char → List Char
  | [] => []
  | c :: rest =>
    if "success: ".data.isPrefixOf (c :: rest) then removeAllSuccess (List.drop 8 rest)
    else c :: removeAllSuccess rest
termination_by l => l.length
decreasing_by
  · simp only [List.length_drop, List.length_cons]; omega
  · simp only [List.length_cons]; omega

/-- Python `header.split(sep)` for a one-character separator: the list of
segments between occurrences of `sep`; never empty. -/
def splitOnChar (sep : Char) : List Char → List (List Char)
  | [] => [[]]
  | c :: rest =>
    if c = sep then [] :: splitOnChar sep rest
    else
      match splitOnChar sep rest with
      | [] => [[c]]
      | p :: ps => (c :: p) :: ps

/-- The session-id extraction of `EZIDClient.login` (`src/EZID.py`
line 192): `header.split(";")[0].split("=")[1]`.  Index `[0]` always
exists; index `[1]` may not (Python `IndexError`), hence `Option`. -/
def extractSessionId (header : List Char) : Option (List Char) :=
  ((splitOnChar '=' ((splitOnChar ';' header).headD []))[1]?)

/-- The mutable state of an `EZIDClient` instance (`src/EZID.py`
lines 131–148): stored credentials (`username`, `password`), the cached
session id (`None` or a string, so `Option`), and the derived cookie
string.  The proxy and opener hold no claim-relevant state. -/
structure ClientState where
  credentials : Option (List Char × List Char)
  session_id : Option (List Char)
  cookie : Option (List Char)
deriving DecidableEq

/-- Python truthiness of the session id: `None` and `""` are falsy. -/
def truthy : Option (List Char) → Bool
  | none => false
  | some s => !s.isEmpty

/-- The `session_id` property setter (`src/EZID.py` lines 154–158):
store the new value; only when it is truthy, re-derive the cookie. -/
def setSessionId (st : ClientState) (sid : Option (List Char)) : ClientState :=
  { st with
    session_id := sid
    cookie := if truthy sid then some ("sessionid=".data ++ sid.getD []) else st.cookie }

/-- `EZIDClient.__init__` (`src/EZID.py` lines 131–148): the cookie starts
as `None` and is derived only when a truthy session id is passed in. -/
def initClient (credentials : Option (List Char × List Char))
    (session_id : Option (List Char)) : ClientState :=
  { credentials := credentials
    session_id := session_id
    cookie := if truthy session_id then some ("sessionid=".data ++ session_id.getD []) else none }

/-- The cookie header attached by `_get_request` (`src/EZID.py` line 161):
`if self._cookie: request.add_header("Cookie", self._cookie)` — attached
only when the stored cookie string is truthy. -/
def attachedCookie (st : ClientState) : Option (List Char) :=
  match st.cookie with
  | none => none
  | some c => if c.isEmpty then none else some c

/-- A request issued by the client: either the login exchange of
`EZIDClient.login` (carrying optional basic-auth credentials, no cookie)
or an API request built by the other operations (method, path, the
attached cookie header, optional ANVL body). -/
inductive Request where
  | loginReq (auth : Option (List Char × List Char))
  | opReq (method : List Char) (path : List Char)
      (cookie : Option (List Char)) (body : Option (List Char))
deriving DecidableEq

/-- Whether a request is the login exchange. -/
def Request.isLogin : Request → Bool
  | .loginReq _ => true
  | .opReq _ _ _ _ => false

/-- An HTTP response as far as this client inspects one: status code,
reason phrase, the `Set-Cookie` header when present, and the body. -/
structure HttpResponse where
  status : Nat
  reason : List Char
  setCookie : Option (List Char)
  body : List Char
deriving DecidableEq

/-- The network, as an oracle from requests to responses. -/
abbrev Server := Request → HttpResponse

/-- The errors a client operation can surface, following the spec's error
taxonomy: `authError` for failures raised inside the login exchange
(`res.raise_for_status()` in `EZIDClient.login`), `requestError` for a
non-success status on any other request (`urllib.error.HTTPError`),
`attributeError` for a missing `Set-Cookie` header (`None.split`), and
`indexError` for a `Set-Cookie` header without a second `=`-segment. -/
inductive ClientError where
  | authError (status : Nat) (reason : List Char) (body : List Char)
  | requestError (status : Nat) (reason : List Char) (body : List Char)
  | attributeError
  | indexError
deriving DecidableEq

/-- Modelled from the spec: the success test applied to API responses.
The standard library's HTTP error processing (not part of this
repository) raises for any non-2xx status, and the repository's
`_MyHTTPErrorProcessor` (`src/EZID/EZID.py` lines 58–66) additionally
passes status 201 through as success. -/
def isSuccessStatus (code : Nat) : Bool :=
  code == 201 || (decide (200 ≤ code) && decide (code < 300))

/-- `EZIDClient.login` (`src/EZID.py` lines 181–193) after the response
arrives: `res.raise_for_status()` (modelled from the spec: the `requests`
library raises exactly for status ≥ 400), then the session id is parsed
out of the `Set-Cookie` header, stored through the property setter, and
returned. -/
def loginResult (st : ClientState) (resp : HttpResponse) :
    Except ClientError (List Char × ClientState) :=
  if 400 ≤ resp.status then .error (.authError resp.status resp.reason resp.body)
  else
    match resp.setCookie with
    | none => .error .attributeError
    | some h =>
      match extractSessionId h with
      | none => .error .indexError
      | some sid => .ok (sid, setSessionId st (some sid))

/-- `EZIDClient.login`: one request to the login endpoint carrying the
stored credentials (`requests.get(url, auth=auth)` attaches no cookie). -/
def loginFn (server : Server) (st : ClientState) :
    List Request × Except ClientError (List Char × ClientState) :=
  ([Request.loginReq st.credentials],
    loginResult st (server (Request.loginReq st.credentials)))

/-- The guard shared by all mutating operations (`src/EZID.py` lines
202–204 etc.): `if not self.session_id: self.session_id = self.login()`.
A truthy cached session id skips login entirely; otherwise login runs and
its result is assigned through the property setter once more. -/
def ensureSession (server : Server) (st : ClientState) :
    List Request × Except ClientError ClientState :=
  if truthy st.session_id then ([], .ok st)
  else
    ((loginFn server st).1,
      (loginFn server st).2.map fun p => setSessionId p.2 (some p.1))

/-- The shared shape of `update`, `create`, `mint` and `delete`
(`src/EZID.py` lines 202–239): ensure a session, build the request with
the now-current cookie, issue it once through `_get_request`, classify
the status, and apply the operation's result transform to the body. -/
def runAuthedOp (server : Server) (st : ClientState) (method path : List Char)
    (body : Option (List Char)) (transform : List Char → List Char) :
    List Request × Except ClientError (List Char × ClientState) :=
  match ensureSession server st with
  | (lreqs, .error e) => (lreqs, .error e)
  | (lreqs, .ok st1) =>
    if isSuccessStatus (server (Request.opReq method path (attachedCookie st1) body)).status then
      (lreqs ++ [Request.opReq method path (attachedCookie st1) body],
        .ok (transform (server (Request.opReq method path (attachedCookie st1) body)).body, st1))
    else
      (lreqs ++ [Request.opReq method path (attachedCookie st1) body],
        .error (.requestError (server (Request.opReq method path (attachedCookie st1) body)).status
          (server (Request.opReq method path (attachedCookie st1) body)).reason
          (server (Request.opReq method path (attachedCookie st1) body)).body))

/-- The body of `create` and `mint`: `if data:` — an absent or empty dict
sends no body. -/
def anvlBody (dataOpt : Option (List (List Char × List Char))) : Option (List Char) :=
  match dataOpt with
  | none => none
  | some d => if d.isEmpty then none else some (formatAnvlFromDict d)

/-- `EZIDClient.update` (`src/EZID.py` lines 202–209): POST to
`/id/{identifier}`, body always present. -/
def updateFn (server : Server) (st : ClientState) (identifier : List Char)
    (data : List (List Char × List Char)) :
    List Request × Except ClientError (List Char × ClientState) :=
  runAuthedOp server st "POST".data ("/id/".data ++ identifier)
    (some (formatAnvlFromDict data)) id

/-- `EZIDClient.create` (`src/EZID.py` lines 211–219): PUT to
`/id/{identifier}`, optional body. -/
def createFn (server : Server) (st : ClientState) (identifier : List Char)
    (dataOpt : Option (List (List Char × List Char))) :
    List Request × Except ClientError (List Char × ClientState) :=
  runAuthedOp server st "PUT".data ("/id/".data ++ identifier) (anvlBody dataOpt) id

/-- `EZIDClient.mint` (`src/EZID.py` lines 221–231): POST to
`/shoulder/{shoulder}`, optional body, result passed through
`mintTransform`. -/
def mintFn (server : Server) (st : ClientState) (shoulder : List Char)
    (dataOpt : Option (List (List Char × List Char))) :
    List Request × Except ClientError (List Char × ClientState) :=
  runAuthedOp server st "POST".data ("/shoulder/".data ++ shoulder)
    (anvlBody dataOpt) mintTransform

/-- `EZIDClient.delete` (`src/EZID.py` lines 233–239): DELETE to
`/id/{identifier}`, no body. -/
def deleteFn (server : Server) (st : ClientState) (identifier : List Char) :
    List Request × Except ClientError (List Char × ClientState) :=
  runAuthedOp server st "DELETE".data ("/id/".data ++ identifier) none id

/-- The request built by `EZIDClient.view` (`src/EZID.py` lines 173–179). -/
def viewReq (st : ClientState) (identifier : List Char) : Request :=
  Request.opReq "GET".data ("/id/".data ++ identifier) (attachedCookie st) none

/-- `EZIDClient.view`: a single GET with no session handling at all. -/
def viewFn (server : Server) (st : ClientState) (identifier : List Char) :
    List Request × Except ClientError (List Char × ClientState) :=
  if isSuccessStatus (server (viewReq st identifier)).status then
    ([viewReq st identifier], .ok ((server (viewReq st identifier)).body, st))
  else
    ([viewReq st identifier],
      .error (.requestError (server (viewReq st identifier)).status
        (server (viewReq st identifier)).reason (server (viewReq st identifier)).body))

/-- `EZIDClient.logout` (`src/EZID.py` lines 195–200): one GET to the
logout endpoint with the current cookie attached; on success the response
body is assigned to `self.session_id` through the property setter and
returned. -/
def logoutFn (server : Server) (st : ClientState) :
    List Request × Except ClientError (List Char × ClientState) :=
  if isSuccessStatus (server (Request.opReq "GET".data "/logout".data (attachedCookie st) none)).status then
    ([Request.opReq "GET".data "/logout".data (attachedCookie st) none],
      .ok ((server (Request.opReq "GET".data "/logout".data (attachedCookie st) none)).body,
        setSessionId st
          (some (server (Request.opReq "GET".data "/logout".data (attachedCookie st) none)).body)))
  else
    ([Request.opReq "GET".data "/logout".data (attachedCookie st) none],
      .error (.requestError
        (server (Request.opReq "GET".data "/logout".data (attachedCookie st) none)).status
        (server (Request.opReq "GET".data "/logout".data (attachedCookie st) none)).reason
        (server (Request.opReq "GET".data "/logout".data (attachedCookie st) none)).body))

/-- The request built by `EZIDClient.logout` (`src/EZID.py` line 198). -/
def logoutReq (st : ClientState) : Request :=
  Request.opReq "GET".data "/logout".data (attachedCookie st) none

/-- The request built by `EZIDClient.update` (`src/EZID.py` lines 205–208)
from the state reached once a session is ensured: POST to
`/id/{identifier}` with the attached cookie and the ANVL body. -/
def updateReq (st : ClientState) (identifier : List Char)
    (data : List (List Char × List Char)) : Request :=
  Request.opReq "POST".data ("/id/".data ++ identifier) (attachedCookie st)
    (some (formatAnvlFromDict data))

/-- The request built by `EZIDClient.create` (`src/EZID.py` lines 214–218)
from the state reached once a session is ensured: PUT to `/id/{identifier}`
with the attached cookie and the optional ANVL body. -/
def createReq (st : ClientState) (identifier : List Char)
    (dataOpt : Option (List (List Char × List Char))) : Request :=
  Request.opReq "PUT".data ("/id/".data ++ identifier) (attachedCookie st)
    (anvlBody dataOpt)

/-- The request built by `EZIDClient.mint` (`src/EZID.py` lines 226–230)
from the state reached once a session is ensured: POST to
`/shoulder/{shoulder}` with the attached cookie and the optional ANVL
body. -/
def mintReq (st : ClientState) (shoulder : List Char)
    (dataOpt : Option (List (List Char × List Char))) : Request :=
  Request.opReq "POST".data ("/shoulder/".data ++ shoulder) (attachedCookie st)
    (anvlBody dataOpt)

/-- The request built by `EZIDClient.delete` (`src/EZID.py` lines 236–238)
from the state reached once a session is ensured: DELETE to
`/id/{identifier}` with the attached cookie and no body. -/
def deleteReq (st : ClientState) (identifier : List Char) : Request :=
  Request.opReq "DELETE".data ("/id/".data ++ identifier) (attachedCookie st) none

deriving instance DecidableEq for Except

/-- A server that rejects everything with 401, like EZID facing a client
with no credentials (the doctest at `src/EZID.py` lines 122–129). -/
def srvReject : Server := fun _ =>
  { status := 401, reason := "UNAUTHORIZED".data, setCookie := none,
    body := "error: unauthorized".data }

/-- A client with neither credentials nor a cached session. -/
def stAnon : ClientState := initClient none none

/-- A client constructed with a cached session id `"abc"`. -/
def stWithSession : ClientState := initClient none (some "abc".data)

/-- A server that accepts everything: login yields a session cookie,
logout answers with the confirmation body from the doctest at
`src/EZID/EZID.py` line 147, and other operations succeed. -/
def srvOk : Server := fun r =>
  match r with
  | .loginReq _ =>
    { status := 200, reason := "OK".data,
      setCookie := some "sessionid=xyz; Path=/".data, body := [] }
  | .opReq _ path _ _ =>
    if path = "/logout".data then
      { status := 200, reason := "OK".data, setCookie := none,
        body := "success: authentication credentials flushed\n".data }
    else
      { status := 200, reason := "OK".data, setCookie := none,
        body := "success: ark:/99999/fk412345\n".data }

/-- A server whose login response carries a `Set-Cookie` value that itself
contains an `=` sign. -/
def srvEqCookie : Server := fun _ =>
  { status := 200, reason := "OK".data,
    setCookie := some "sessionid=abc=def; Path=/".data, body := [] }

theorem escapeKeyChar_eq_spec : escapeKeyChar = specEscapeKeyChar := by
  funext c
  by_cases h1 : c = '%'
  · subst h1; decide
  · by_cases h2 : c = ':'
    · subst h2; decide
    · by_cases h3 : c = '\r'
      · subst h3; decide
      · by_cases h4 : c = '\n'
        · subst h4; decide
        · simp [escapeKeyChar, specEscapeKeyChar, h1, h2, h3, h4]

theorem escapeValueChar_eq_spec : escapeValueChar = specEscapeValueChar := by
  funext c
  by_cases h1 : c = '%'
  · subst h1; decide
  · by_cases h3 : c = '\r'
    · subst h3; decide
    · by_cases h4 : c = '\n'
      · subst h4; decide
      · simp [escapeValueChar, specEscapeValueChar, h1, h3, h4]

theorem colon_notMem_escapeKeyChar (c : Char) : ':' ∉ escapeKeyChar c := by
  unfold escapeKeyChar
  split
  · rename_i h
    rcases h with h | h | h | h <;> subst h <;> decide
  · rename_i h
    intro hm
    rw [List.mem_singleton] at hm
    exact h (Or.inr (Or.inl hm.symm))

theorem newline_notMem_escapeKeyChar (c : Char) : '\n' ∉ escapeKeyChar c := by
  unfold escapeKeyChar
  split
  · rename_i h
    rcases h with h | h | h | h <;> subst h <;> decide
  · rename_i h
    intro hm
    rw [List.mem_singleton] at hm
    exact h (Or.inr (Or.inr (Or.inr hm.symm)))

theorem newline_notMem_escapeValueChar (c : Char) : '\n' ∉ escapeValueChar c := by
  unfold escapeValueChar
  split
  · rename_i h
    rcases h with h | h | h <;> subst h <;> decide
  · rename_i h
    intro hm
    rw [List.mem_singleton] at hm
    exact h (Or.inr (Or.inr hm.symm))

theorem notMem_escapeKey (x : Char) (hx : ∀ c, x ∉ escapeKeyChar c) :
    ∀ k, x ∉ escapeKey k := by
  intro k
  induction k with
  | nil => simp [escapeKey]
  | cons c cs ih =>
    unfold escapeKey at ih ⊢
    simp only [List.map_cons, List.flatten_cons, List.mem_append]
    rintro (h | h)
    · exact hx c h
    · exact ih h

theorem notMem_escapeValue (x : Char) (hx : ∀ c, x ∉ escapeValueChar c) :
    ∀ v, x ∉ escapeValue v := by
  intro v
  induction v with
  | nil => simp [escapeValue]
  | cons c cs ih =>
    unfold escapeValue at ih ⊢
    simp only [List.map_cons, List.flatten_cons, List.mem_append]
    rintro (h | h)
    · exact hx c h
    · exact ih h

theorem newline_notMem_anvlLine (kv : List Char × List Char) : '\n' ∉ anvlLine kv := by
  unfold anvlLine
  intro hm
  rcases List.mem_append.mp hm with h | h
  · exact notMem_escapeKey '\n' newline_notMem_escapeKeyChar kv.1 h
  · rw [List.mem_cons, List.mem_cons] at h
    rcases h with h | h | h
    · exact absurd h (by decide)
    · exact absurd h (by decide)
    · exact notMem_escapeValue '\n' newline_notMem_escapeValueChar kv.2 h

theorem anvlLine_ne_nil (kv : List Char × List Char) : anvlLine kv ≠ [] := by
  unfold anvlLine
  simp

theorem joinLines_ne_nil : ∀ lines : List (List Char),
    (∀ l ∈ lines, l ≠ []) → lines ≠ [] → joinLines lines ≠ []
  | [], _, hne => absurd rfl hne
  | [l], h, _ => by simpa [joinLines] using h l (by simp)
  | _ :: _ :: _, _, _ => by simp [joinLines]

theorem joinLines_getLast?_ne_newline :
    ∀ lines : List (List Char), (∀ l ∈ lines, l ≠ [] ∧ '\n' ∉ l) →
      (joinLines lines).getLast? ≠ some '\n'
  | [], _ => by simp [joinLines]
  | [l], h => by
    simp only [joinLines]
    intro hc
    exact (h l (by simp)).2 (List.mem_of_getLast?_eq_some hc)
  | l :: l2 :: t, h => by
    have hmem : ∀ x ∈ l2 :: t, x ≠ [] ∧ '\n' ∉ x :=
      fun x hx => h x (List.mem_cons_of_mem _ hx)
    have ih := joinLines_getLast?_ne_newline (l2 :: t) hmem
    have hjoin : joinLines (l2 :: t) ≠ [] :=
      joinLines_ne_nil (l2 :: t) (fun x hx => (hmem x hx).1) (by simp)
    rcases hj : joinLines (l2 :: t) with _ | ⟨y, ys⟩
    · exact absurd hj hjoin
    · rw [joinLines, List.getLast?_append_of_ne_nil _ (by simp), hj,
        List.getLast?_cons_cons]
      rw [hj] at ih
      exact ih

theorem anvlLine_eq_specLine : anvlLine = fun kv : List Char × List Char =>
    (kv.1.map specEscapeKeyChar).flatten ++ [':', ' '] ++ (kv.2.map specEscapeValueChar).flatten := by
  funext kv
  unfold anvlLine escapeKey escapeValue
  rw [escapeKeyChar_eq_spec, escapeValueChar_eq_spec, List.append_assoc]
  rfl

/-- C1: `formatAnvlFromDict` produces one `key: value` line per entry, where in
the key every `%`, `:`, CR, LF and in the value every `%`, CR, LF is replaced by
`%` followed by the character's two-digit uppercase hexadecimal code point, all
other characters pass through unmodified, and the lines are joined with a single
`\n`; in particular the result never ends in a newline, so no trailing newline
is appended. -/
theorem C1_formatAnvlFromDict_correct :
    (∀ d, formatAnvlFromDict d = specFormatAnvlFromDict d) ∧
    (∀ d, (formatAnvlFromDict d).getLast? ≠ some '\n') := by
  constructor
  · intro d
    unfold formatAnvlFromDict specFormatAnvlFromDict
    rw [anvlLine_eq_specLine]
  · intro d
    unfold formatAnvlFromDict
    apply joinLines_getLast?_ne_newline
    intro l hl
    rcases List.mem_map.mp hl with ⟨kv, _, rfl⟩
    exact ⟨anvlLine_ne_nil kv, newline_notMem_anvlLine kv⟩

/-- Closed instance of `C1_formatAnvlFromDict_correct` at a concrete record. -/
theorem C1_formatAnvlFromDict_correct_witness :
    formatAnvlFromDict [("a:b".data, "c%d\ne".data)] =
      specFormatAnvlFromDict [("a:b".data, "c%d\ne".data)] ∧
    (formatAnvlFromDict [("a:b".data, "c%d\ne".data)]).getLast? ≠ some '\n' :=
  ⟨C1_formatAnvlFromDict_correct.1 [("a:b".data, "c%d\ne".data)],
    C1_formatAnvlFromDict_correct.2 [("a:b".data, "c%d\ne".data)]⟩

theorem unescapeAnvl_cons_of_ne (c : Char) (hc : c ≠ '%') :
    ∀ l, unescapeAnvl (c :: l) = c :: unescapeAnvl l
  | [] => rfl
  | [_] => rfl
  | _ :: _ :: _ => by simp [unescapeAnvl, hc]

theorem unescapeAnvl_escape_triplet (d1 d2 : Char) (h1 h2 : Nat)
    (hd1 : hexDigitVal d1 = some h1) (hd2 : hexDigitVal d2 = some h2) (rest : List Char) :
    unescapeAnvl ('%' :: d1 :: d2 :: rest) = Char.ofNat (16 * h1 + h2) :: unescapeAnvl rest := by
  simp [unescapeAnvl, hd1, hd2]

theorem unescape_escapeKeyChar (c : Char) (rest : List Char) :
    unescapeAnvl (escapeKeyChar c ++ rest) = c :: unescapeAnvl rest := by
  by_cases h1 : c = '%'
  · subst h1
    have e : escapeKeyChar '%' ++ rest = '%' :: '2' :: '5' :: rest := by
      rw [show escapeKeyChar '%' = ['%', '2', '5'] from by decide]; rfl
    rw [e, unescapeAnvl_escape_triplet '2' '5' 2 5 (by decide) (by decide),
      show Char.ofNat (16 * 2 + 5) = '%' from by decide]
  · by_cases h2 : c = ':'
    · subst h2
      have e : escapeKeyChar ':' ++ rest = '%' :: '3' :: 'A' :: rest := by
        rw [show escapeKeyChar ':' = ['%', '3', 'A'] from by decide]; rfl
      rw [e, unescapeAnvl_escape_triplet '3' 'A' 3 10 (by decide) (by decide),
        show Char.ofNat (16 * 3 + 10) = ':' from by decide]
    · by_cases h3 : c = '\r'
      · subst h3
        have e : escapeKeyChar '\r' ++ rest = '%' :: '0' :: 'D' :: rest := by
          rw [show escapeKeyChar '\r' = ['%', '0', 'D'] from by decide]; rfl
        rw [e, unescapeAnvl_escape_triplet '0' 'D' 0 13 (by decide) (by decide),
          show Char.ofNat (16 * 0 + 13) = '\r' from by decide]
      · by_cases h4 : c = '\n'
        · subst h4
          have e : escapeKeyChar '\n' ++ rest = '%' :: '0' :: 'A' :: rest := by
            rw [show escapeKeyChar '\n' = ['%', '0', 'A'] from by decide]; rfl
          rw [e, unescapeAnvl_escape_triplet '0' 'A' 0 10 (by decide) (by decide),
            show Char.ofNat (16 * 0 + 10) = '\n' from by decide]
        · have e : escapeKeyChar c = [c] := by simp [escapeKeyChar, h1, h2, h3, h4]
          rw [e, List.singleton_append, unescapeAnvl_cons_of_ne c h1]

theorem unescape_escapeValueChar (c : Char) (rest : List Char) :
    unescapeAnvl (escapeValueChar c ++ rest) = c :: unescapeAnvl rest := by
  by_cases h1 : c = '%'
  · subst h1
    have e : escapeValueChar '%' ++ rest = '%' :: '2' :: '5' :: rest := by
      rw [show escapeValueChar '%' = ['%', '2', '5'] from by decide]; rfl
    rw [e, unescapeAnvl_escape_triplet '2' '5' 2 5 (by decide) (by decide),
      show Char.ofNat (16 * 2 + 5) = '%' from by decide]
  · by_cases h3 : c = '\r'
    · subst h3
      have e : escapeValueChar '\r' ++ rest = '%' :: '0' :: 'D' :: rest := by
        rw [show escapeValueChar '\r' = ['%', '0', 'D'] from by decide]; rfl
      rw [e, unescapeAnvl_escape_triplet '0' 'D' 0 13 (by decide) (by decide),
        show Char.ofNat (16 * 0 + 13) = '\r' from by decide]
    · by_cases h4 : c = '\n'
      · subst h4
        have e : escapeValueChar '\n' ++ rest = '%' :: '0' :: 'A' :: rest := by
          rw [show escapeValueChar '\n' = ['%', '0', 'A'] from by decide]; rfl
        rw [e, unescapeAnvl_escape_triplet '0' 'A' 0 10 (by decide) (by decide),
          show Char.ofNat (16 * 0 + 10) = '\n' from by decide]
      · have e : escapeValueChar c = [c] := by simp [escapeValueChar, h1, h3, h4]
        rw [e, List.singleton_append, unescapeAnvl_cons_of_ne c h1]

theorem unescapeAnvl_escapeKey : ∀ k, unescapeAnvl (escapeKey k) = k := by
  intro k
  induction k with
  | nil => rfl
  | cons c cs ih =>
    unfold escapeKey at ih ⊢
    simp only [List.map_cons, List.flatten_cons]
    rw [unescape_escapeKeyChar, ih]

theorem unescapeAnvl_escapeValue : ∀ v, unescapeAnvl (escapeValue v) = v := by
  intro v
  induction v with
  | nil => rfl
  | cons c cs ih =>
    unfold escapeValue at ih ⊢
    simp only [List.map_cons, List.flatten_cons]
    rw [unescape_escapeValueChar, ih]

theorem splitFirstColonSpace_append (a b : List Char) (ha : ':' ∉ a) :
    splitFirstColonSpace (a ++ ':' :: ' ' :: b) = some (a, b) := by
  induction a with
  | nil => simp [splitFirstColonSpace]
  | cons x a ih =>
    have hx : x ≠ ':' := fun hq => ha (by subst hq; exact List.mem_cons_self _ _)
    have ha2 : ':' ∉ a := fun hq => ha (List.mem_cons_of_mem _ hq)
    rw [List.cons_append]
    simp [splitFirstColonSpace, hx, ih ha2]

/-- C2: for every single key/value pair, encoding with `formatAnvlFromDict`
and then decoding (split on the first `": "`, then replace every `%XX`
escape by the character with hex code `XX`) recovers exactly the original
key and value — the decoder is a left inverse of the encoder. -/
theorem C2_encode_decode_roundtrip (k v : List Char) :
    decodeAnvlLine (formatAnvlFromDict [(k, v)]) = some (k, v) := by
  have h1 : formatAnvlFromDict [(k, v)] = escapeKey k ++ ':' :: ' ' :: escapeValue v := rfl
  rw [h1]
  unfold decodeAnvlLine
  rw [splitFirstColonSpace_append _ _ (notMem_escapeKey ':' colon_notMem_escapeKeyChar k)]
  simp only [Option.map_some']
  rw [unescapeAnvl_escapeKey, unescapeAnvl_escapeValue]

theorem formatAnvlFromListLines_none_iff :
    ∀ l, formatAnvlFromListLines l = none ↔ l.length % 2 = 1
  | [] => by simp [formatAnvlFromListLines]
  | [k] => by simp [formatAnvlFromListLines]
  | k :: v :: rest => by
    have ih := formatAnvlFromListLines_none_iff rest
    simp only [formatAnvlFromListLines, List.length_cons, Option.map_eq_none', ih]
    omega

/-- C9: `formatAnvlFromList` reads `l[i+1]` for the last pair index, so on
every odd-length list it fails with an out-of-bounds index error (modelled
as `none`), and it is well-defined exactly on even-length lists. -/
theorem C9_formatAnvlFromList_odd_fails (l : List (List Char)) :
    formatAnvlFromList l = none ↔ l.length % 2 = 1 := by
  unfold formatAnvlFromList
  rw [Option.map_eq_none']
  exact formatAnvlFromListLines_none_iff l

theorem successData_eq : "success: ".data = ['s', 'u', 'c', 'c', 'e', 's', 's', ':', ' '] := by
  decide

theorem isPrefixOf_exists_append : ∀ p l : List Char, p.isPrefixOf l = true → ∃ t, l = p ++ t
  | [], l, _ => ⟨l, rfl⟩
  | a :: p, [], h => by simp [List.isPrefixOf] at h
  | a :: p, b :: l, h => by
    simp only [List.isPrefixOf, Bool.and_eq_true, beq_iff_eq] at h
    obtain ⟨t, ht⟩ := isPrefixOf_exists_append p l h.2
    cases h.1
    exact ⟨t, by rw [ht]; rfl⟩

theorem isPrefixOf_success_cons (t : List Char) :
    "success: ".data.isPrefixOf ('s' :: 'u' :: 'c' :: 'c' :: 'e' :: 's' :: 's' :: ':' :: ' ' :: t) = true := by
  rw [successData_eq]
  simp [List.isPrefixOf]

theorem replaceSuccessEmpty_eq_removeAllSuccess :
    ∀ l, replaceSuccessEmpty l = removeAllSuccess l := by
  intro l
  induction l using replaceSuccessEmpty.induct with
  | case1 rest ih =>
    rw [replaceSuccessEmpty.eq_1, removeAllSuccess.eq_2,
      if_pos (isPrefixOf_success_cons rest)]
    rw [show List.drop 8 ('u' :: 'c' :: 'c' :: 'e' :: 's' :: 's' :: ':' :: ' ' :: rest) = rest
      from rfl]
    exact ih
  | case2 c rest hno ih =>
    have hnp : ¬ "success: ".data.isPrefixOf (c :: rest) = true := by
      intro hp
      obtain ⟨t, ht⟩ := isPrefixOf_exists_append _ _ hp
      rw [successData_eq] at ht
      have ht2 : c :: rest = 's' :: 'u' :: 'c' :: 'c' :: 'e' :: 's' :: 's' :: ':' :: ' ' :: t := by
        rw [ht]; rfl
      injection ht2 with e1 e2
      exact hno t e1 e2
    rw [removeAllSuccess.eq_2, if_neg hnp, replaceSuccessEmpty.eq_2 c rest hno, ← ih]
  | case3 =>
    rw [removeAllSuccess.eq_1, replaceSuccessEmpty.eq_3]

/-- C3 counterexample: the claim says `mint` strips only the leading
`"success: "` prefix and surrounding whitespace, so on the response body
`"success: a success: b\n"` it would have to return `"a success: b"`;
the code's `str.replace` removes the inner occurrence too and returns
`"a b"`. -/
theorem C3_mint_transform_counterexample :
    mintTransform "success: a success: b\n".data = "a b".data ∧
    "a b".data ≠ "a success: b".data := by decide

/-- C3 (amended): `mint` returns the response body with every occurrence
of the substring `"success: "` removed (not only a leading prefix) and
surrounding whitespace stripped; in particular, for a response body
`"success: ark:/99999/fk412345\n"` the result is `"ark:/99999/fk412345"`. -/
theorem C3_mint_transform_amended :
    (∀ body, mintTransform body = pyStrip (removeAllSuccess body)) ∧
    mintTransform "success: ark:/99999/fk412345\n".data = "ark:/99999/fk412345".data := by
  constructor
  · intro body
    unfold mintTransform
    rw [replaceSuccessEmpty_eq_removeAllSuccess]
  · decide

/-- C10: assigning a falsy value (`None` or the empty string) through the
`session_id` setter updates the stored session id but leaves the previously
derived cookie string unchanged — so the derived-attribute relation
`cookie = "sessionid=" + session_id` can be violated and requests still
attach the old `Cookie` header. -/
theorem C10_falsy_setter_keeps_cookie (st : ClientState) (sid : Option (List Char))
    (h : truthy sid = false) :
    (setSessionId st sid).session_id = sid ∧
    (setSessionId st sid).cookie = st.cookie ∧
    attachedCookie (setSessionId st sid) = attachedCookie st := by
  unfold setSessionId attachedCookie
  rw [h]
  simp

/-- Closed instance of `C10_falsy_setter_keeps_cookie`: clearing the session
id to `None` on a client holding cookie `"sessionid=abc"` leaves that cookie
in place and still attached to requests. -/
theorem C10_falsy_setter_keeps_cookie_witness :
    (setSessionId stWithSession none).session_id = none ∧
    (setSessionId stWithSession none).cookie = stWithSession.cookie ∧
    attachedCookie (setSessionId stWithSession none) = attachedCookie stWithSession :=
  C10_falsy_setter_keeps_cookie stWithSession none rfl

theorem loginFn_auth_reject (server : Server) (st : ClientState)
    (hc : st.credentials = none)
    (hr : 400 ≤ (server (Request.loginReq none)).status) :
    loginFn server st = ([Request.loginReq none],
      .error (.authError (server (Request.loginReq none)).status
        (server (Request.loginReq none)).reason (server (Request.loginReq none)).body)) := by
  unfold loginFn loginResult
  rw [hc, if_pos hr]

theorem ensureSession_auth_reject (server : Server) (st : ClientState)
    (hc : st.credentials = none) (hs : truthy st.session_id = false)
    (hr : 400 ≤ (server (Request.loginReq none)).status) :
    ensureSession server st = ([Request.loginReq none],
      .error (.authError (server (Request.loginReq none)).status
        (server (Request.loginReq none)).reason (server (Request.loginReq none)).body)) := by
  unfold ensureSession
  rw [hs, loginFn_auth_reject server st hc hr]
  rfl

theorem runAuthedOp_auth_reject (server : Server) (st : ClientState)
    (m p : List Char) (b : Option (List Char)) (tf : List Char → List Char)
    (hc : st.credentials = none) (hs : truthy st.session_id = false)
    (hr : 400 ≤ (server (Request.loginReq none)).status) :
    runAuthedOp server st m p b tf = ([Request.loginReq none],
      .error (.authError (server (Request.loginReq none)).status
        (server (Request.loginReq none)).reason (server (Request.loginReq none)).body)) := by
  unfold runAuthedOp
  rw [ensureSession_auth_reject server st hc hs hr]

/-- C4: for a client whose cached session id is falsy and whose stored
credentials are absent, every operation requiring authentication (mint,
create, update, delete) fails with an `AuthError` raised by the login
exchange (the server rejects the anonymous login), and the request trace
holds only that login request — no session-requiring API request is ever
attempted. -/
theorem C4_no_credentials_auth_error (server : Server) (st : ClientState)
    (identifier : List Char) (data : List (List Char × List Char))
    (dataOpt : Option (List (List Char × List Char)))
    (hc : st.credentials = none) (hs : truthy st.session_id = false)
    (hr : 400 ≤ (server (Request.loginReq none)).status) :
    updateFn server st identifier data = ([Request.loginReq none],
      .error (.authError (server (Request.loginReq none)).status
        (server (Request.loginReq none)).reason (server (Request.loginReq none)).body)) ∧
    createFn server st identifier dataOpt = ([Request.loginReq none],
      .error (.authError (server (Request.loginReq none)).status
        (server (Request.loginReq none)).reason (server (Request.loginReq none)).body)) ∧
    mintFn server st identifier dataOpt = ([Request.loginReq none],
      .error (.authError (server (Request.loginReq none)).status
        (server (Request.loginReq none)).reason (server (Request.loginReq none)).body)) ∧
    deleteFn server st identifier = ([Request.loginReq none],
      .error (.authError (server (Request.loginReq none)).status
        (server (Request.loginReq none)).reason (server (Request.loginReq none)).body)) := by
  refine ⟨?_, ?_, ?_, ?_⟩
  · unfold updateFn
    exact runAuthedOp_auth_reject server st _ _ _ _ hc hs hr
  · unfold createFn
    exact runAuthedOp_auth_reject server st _ _ _ _ hc hs hr
  · unfold mintFn
    exact runAuthedOp_auth_reject server st _ _ _ _ hc hs hr
  · unfold deleteFn
    exact runAuthedOp_auth_reject server st _ _ _ _ hc hs hr

/-- Closed instance of `C4_no_credentials_auth_error` against a rejecting
server and the anonymous client. -/
theorem C4_no_credentials_auth_error_witness :
    updateFn srvReject stAnon "ark:/99999/fk4".data [] = ([Request.loginReq none],
      .error (.authError 401 "UNAUTHORIZED".data "error: unauthorized".data)) ∧
    createFn srvReject stAnon "ark:/99999/fk4".data none = ([Request.loginReq none],
      .error (.authError 401 "UNAUTHORIZED".data "error: unauthorized".data)) ∧
    mintFn srvReject stAnon "ark:/99999/fk4".data none = ([Request.loginReq none],
      .error (.authError 401 "UNAUTHORIZED".data "error: unauthorized".data)) ∧
    deleteFn srvReject stAnon "ark:/99999/fk4".data = ([Request.loginReq none],
      .error (.authError 401 "UNAUTHORIZED".data "error: unauthorized".data)) :=
  C4_no_credentials_auth_error srvReject stAnon "ark:/99999/fk4".data [] none
    rfl rfl (by decide)

theorem truthy_some_of_ne_nil (b : List Char) (hb : b ≠ []) : truthy (some b) = true := by
  cases b with
  | nil => exact absurd rfl hb
  | cons a l => rfl

theorem attachedCookie_of_session (st : ClientState) (sid : List Char)
    (h3 : st.cookie = some ("sessionid=".data ++ sid)) :
    attachedCookie st = some ("sessionid=".data ++ sid) := by
  unfold attachedCookie
  rw [h3, show "sessionid=".data = 's' :: "essionid=".data from by decide]
  simp

theorem ensureSession_cached (server : Server) (st : ClientState)
    (h : truthy st.session_id = true) :
    ensureSession server st = ([], .ok st) := by
  unfold ensureSession
  rw [h]
  simp

theorem runAuthedOp_cached_trace (server : Server) (st : ClientState)
    (m p : List Char) (b : Option (List Char)) (tf : List Char → List Char)
    (h : truthy st.session_id = true) :
    (runAuthedOp server st m p b tf).1 = [Request.opReq m p (attachedCookie st) b] := by
  unfold runAuthedOp
  rw [ensureSession_cached server st h]
  split
  · rename_i heq
    exact absurd heq (by simp)
  · rename_i heq
    simp only [Prod.mk.injEq, Except.ok.injEq] at heq
    obtain ⟨e1, e2⟩ := heq
    subst e1
    subst e2
    split <;> simp

/-- C6: a client with a non-empty cached session id (and the cookie derived
from it) never issues a login request from any mutating operation — each of
update, create, mint, delete issues exactly one API request, and that
request reuses the cached session cookie. -/
theorem C6_session_reuse (server : Server) (st : ClientState)
    (identifier : List Char) (data : List (List Char × List Char))
    (dataOpt : Option (List (List Char × List Char))) (sid : List Char)
    (h1 : st.session_id = some sid) (h2 : sid ≠ [])
    (h3 : st.cookie = some ("sessionid=".data ++ sid)) :
    (updateFn server st identifier data).1 =
      [Request.opReq "POST".data ("/id/".data ++ identifier)
        (some ("sessionid=".data ++ sid)) (some (formatAnvlFromDict data))] ∧
    (createFn server st identifier dataOpt).1 =
      [Request.opReq "PUT".data ("/id/".data ++ identifier)
        (some ("sessionid=".data ++ sid)) (anvlBody dataOpt)] ∧
    (mintFn server st identifier dataOpt).1 =
      [Request.opReq "POST".data ("/shoulder/".data ++ identifier)
        (some ("sessionid=".data ++ sid)) (anvlBody dataOpt)] ∧
    (deleteFn server st identifier).1 =
      [Request.opReq "DELETE".data ("/id/".data ++ identifier)
        (some ("sessionid=".data ++ sid)) none] := by
  have ht : truthy st.session_id = true := by
    rw [h1]
    exact truthy_some_of_ne_nil sid h2
  have hac : attachedCookie st = some ("sessionid=".data ++ sid) :=
    attachedCookie_of_session st sid h3
  refine ⟨?_, ?_, ?_, ?_⟩
  · unfold updateFn
    rw [runAuthedOp_cached_trace server st _ _ _ _ ht, hac]
  · unfold createFn
    rw [runAuthedOp_cached_trace server st _ _ _ _ ht, hac]
  · unfold mintFn
    rw [runAuthedOp_cached_trace server st _ _ _ _ ht, hac]
  · unfold deleteFn
    rw [runAuthedOp_cached_trace server st _ _ _ _ ht, hac]

/-- Closed instance of `C6_session_reuse`: the client holding session
`"abc"` issues exactly one non-login request per mutating operation. -/
theorem C6_session_reuse_witness :
    (updateFn srvOk stWithSession "i".data []).1 =
      [Request.opReq "POST".data "/id/i".data (some "sessionid=abc".data) (some [])] ∧
    (createFn srvOk stWithSession "i".data none).1 =
      [Request.opReq "PUT".data "/id/i".data (some "sessionid=abc".data) none] ∧
    (mintFn srvOk stWithSession "i".data none).1 =
      [Request.opReq "POST".data "/shoulder/i".data (some "sessionid=abc".data) none] ∧
    (deleteFn srvOk stWithSession "i".data).1 =
      [Request.opReq "DELETE".data "/id/i".data (some "sessionid=abc".data) none] :=
  C6_session_reuse srvOk stWithSession "i".data [] none "abc".data
    (by decide) (by decide) (by decide)

/-- C5 counterexample: logging a client with cached session `"abc"` out
against a server whose logout response is the confirmation body
`"success: authentication credentials flushed\n"` succeeds, yet afterwards
the cached session id is that body — truthy, not cleared — and a subsequent
mutating operation issues no login request at all. -/
theorem C5_logout_counterexample :
    (logoutFn srvOk stWithSession).2 =
      .ok ("success: authentication credentials flushed\n".data,
        setSessionId stWithSession
          (some "success: authentication credentials flushed\n".data)) ∧
    truthy (setSessionId stWithSession
      (some "success: authentication credentials flushed\n".data)).session_id = true ∧
    ((updateFn srvOk (setSessionId stWithSession
        (some "success: authentication credentials flushed\n".data)) "i".data []).1.all
      fun r => !r.isLogin) = true := by decide

/-- C5 (amended): a successful `logout` does not clear the cached session
id; it assigns the logout response body to it through the property setter.
Whenever that body is non-empty the new session id is truthy, the cookie
becomes `"sessionid=" + body`, and a subsequent mutating operation reuses
it instead of triggering a fresh login. -/
theorem C5_logout_amended (server : Server) (st : ClientState)
    (b : List Char) (st2 : ClientState) (server2 : Server)
    (identifier : List Char) (data : List (List Char × List Char))
    (h : (logoutFn server st).2 = .ok (b, st2)) (hb : b ≠ []) :
    st2.session_id = some b ∧
    st2.cookie = some ("sessionid=".data ++ b) ∧
    truthy st2.session_id = true ∧
    (updateFn server2 st2 identifier data).1 =
      [Request.opReq "POST".data ("/id/".data ++ identifier) (attachedCookie st2)
        (some (formatAnvlFromDict data))] := by
  unfold logoutFn at h
  split at h
  · simp only [Prod.mk.injEq, Except.ok.injEq] at h
    obtain ⟨e1, e2⟩ := h
    subst e2
    rw [e1]
    have hsid : (setSessionId st (some b)).session_id = some b := by
      unfold setSessionId
      simp
    have ht : truthy (setSessionId st (some b)).session_id = true := by
      rw [hsid]
      exact truthy_some_of_ne_nil b hb
    refine ⟨hsid, ?_, ht, ?_⟩
    · unfold setSessionId
      simp only
      rw [truthy_some_of_ne_nil b hb]
      simp
    · exact runAuthedOp_cached_trace server2 _ _ _ _ _ ht
  · exact absurd h (by simp)

/-- Closed instance of `C5_logout_amended` after the concrete logout of
`C5_logout_counterexample`. -/
theorem C5_logout_amended_witness :
    (setSessionId stWithSession
      (some "success: authentication credentials flushed\n".data)).session_id =
      some "success: authentication credentials flushed\n".data ∧
    (setSessionId stWithSession
      (some "success: authentication credentials flushed\n".data)).cookie =
      some ("sessionid=".data ++ "success: authentication credentials flushed\n".data) ∧
    truthy (setSessionId stWithSession
      (some "success: authentication credentials flushed\n".data)).session_id = true ∧
    (updateFn srvOk (setSessionId stWithSession
        (some "success: authentication credentials flushed\n".data)) "i".data []).1 =
      [Request.opReq "POST".data "/id/i".data
        (attachedCookie (setSessionId stWithSession
          (some "success: authentication credentials flushed\n".data)))
        (some [])] :=
  C5_logout_amended srvOk stWithSession
    "success: authentication credentials flushed\n".data
    (setSessionId stWithSession (some "success: authentication credentials flushed\n".data))
    srvOk "i".data [] (by decide) (by decide)

theorem splitOnChar_append_sep (sep : Char) (a b : List Char) (ha : sep ∉ a) :
    splitOnChar sep (a ++ sep :: b) = a :: splitOnChar sep b := by
  induction a with
  | nil => simp [splitOnChar]
  | cons c a ih =>
    have hc : c ≠ sep := fun hq => ha (by subst hq; exact List.mem_cons_self _ _)
    have ha2 : sep ∉ a := fun hq => ha (List.mem_cons_of_mem _ hq)
    rw [List.cons_append]
    simp [splitOnChar, hc, ih ha2]

theorem splitOnChar_no_sep (sep : Char) (l : List Char) (h : sep ∉ l) :
    splitOnChar sep l = [l] := by
  induction l with
  | nil => rfl
  | cons c cs ih =>
    have hc : c ≠ sep := fun hq => h (by subst hq; exact List.mem_cons_self _ _)
    have h2 : sep ∉ cs := fun hq => h (List.mem_cons_of_mem _ hq)
    simp [splitOnChar, hc, ih h2]

theorem extractSessionId_eq (v rest : List Char) (hv1 : ';' ∉ v) (hv2 : '=' ∉ v) :
    extractSessionId ("sessionid=".data ++ v ++ ';' :: rest) = some v := by
  have hsemi : ';' ∉ "sessionid=".data ++ v := by
    intro hm
    rcases List.mem_append.mp hm with hq | hq
    · exact absurd hq (by decide)
    · exact hv1 hq
  have e1 : "sessionid=".data ++ v ++ ';' :: rest = ("sessionid=".data ++ v) ++ ';' :: rest := by
    rw [List.append_assoc]
  have e2 : "sessionid=".data ++ v = "sessionid".data ++ '=' :: v := by
    rw [show "sessionid=".data = "sessionid".data ++ ['='] from by decide, List.append_assoc]
    rfl
  unfold extractSessionId
  rw [e1, splitOnChar_append_sep ';' _ rest hsemi]
  simp only [List.headD_cons]
  rw [e2, splitOnChar_append_sep '=' _ v (by decide), splitOnChar_no_sep '=' v hv2]
  rfl

/-- C8 counterexample: for a login response whose `Set-Cookie` header is
`"sessionid=abc=def; Path=/"`, the claim says the cached and returned
session id is the full value `"abc=def"`; the code's
`split(";")[0].split("=")[1]` takes only the part between the first and
second `=`, namely `"abc"`. -/
theorem C8_login_extract_counterexample :
    (loginFn srvEqCookie stAnon).2 =
      .ok ("abc".data, setSessionId stAnon (some "abc".data)) ∧
    "abc".data ≠ "abc=def".data := by decide

/-- C8 (amended): for a successful login response whose `Set-Cookie` header
has the form `"sessionid=<value>; ..."`, login extracts the substring of
the part before the first `;` lying between the first and second `=` — the
full `<value>` exactly when `<value>` itself contains no `=` — caches it
through the `session_id` setter, and returns it. -/
theorem C8_login_extract_amended (server : Server) (st : ClientState)
    (v rest : List Char) (hv1 : ';' ∉ v) (hv2 : '=' ∉ v)
    (hstat : (server (Request.loginReq st.credentials)).status = 200)
    (hcookie : (server (Request.loginReq st.credentials)).setCookie =
      some ("sessionid=".data ++ v ++ ';' :: rest)) :
    loginFn server st = ([Request.loginReq st.credentials],
      .ok (v, setSessionId st (some v))) ∧
    (setSessionId st (some v)).session_id = some v := by
  constructor
  · unfold loginFn loginResult
    rw [hstat, hcookie, if_neg (by norm_num)]
    show ([Request.loginReq st.credentials],
      match extractSessionId ("sessionid=".data ++ v ++ ';' :: rest) with
      | none => Except.error ClientError.indexError
      | some sid => Except.ok (sid, setSessionId st (some sid))) = _
    rw [extractSessionId_eq v rest hv1 hv2]
  · unfold setSessionId
    simp

/-- Closed instance of `C8_login_extract_amended`: the server `srvOk`
answers login with `Set-Cookie: sessionid=xyz; Path=/`, and login returns
and caches `"xyz"`. -/
theorem C8_login_extract_amended_witness :
    loginFn srvOk stAnon = ([Request.loginReq none],
      .ok ("xyz".data, setSessionId stAnon (some "xyz".data))) ∧
    (setSessionId stAnon (some "xyz".data)).session_id = some "xyz".data :=
  C8_login_extract_amended srvOk stAnon "xyz".data " Path=/".data
    (by decide) (by decide) (by decide) (by decide)

theorem isSuccessStatus_iff (n : Nat) :
    isSuccessStatus n = true ↔ (n = 201 ∨ (200 ≤ n ∧ n < 300)) := by
  simp [isSuccessStatus]

theorem ensureSession_trace_len (server : Server) (st : ClientState) :
    (ensureSession server st).1.length ≤ 1 := by
  unfold ensureSession
  split
  · simp
  · simp [loginFn]

theorem runAuthedOp_trace_len (server : Server) (st : ClientState)
    (m p : List Char) (b : Option (List Char)) (tf : List Char → List Char) :
    (runAuthedOp server st m p b tf).1.length ≤ 2 := by
  have hlen := ensureSession_trace_len server st
  unfold runAuthedOp
  rcases he : ensureSession server st with ⟨lreqs, res⟩
  rw [he] at hlen
  simp only at hlen
  split
  · rename_i heq
    injection heq with h1 h2
    subst h1
    show lreqs.length ≤ 2
    omega
  · rename_i heq
    injection heq with h1 h2
    subst h1
    split <;>
      · simp
        omega

theorem viewFn_classify (server : Server) (st : ClientState) (identifier : List Char) :
    ((viewFn server st identifier).2 = .ok ((server (viewReq st identifier)).body, st) ↔
      ((server (viewReq st identifier)).status = 201 ∨
        (200 ≤ (server (viewReq st identifier)).status ∧
          (server (viewReq st identifier)).status < 300))) ∧
    ((viewFn server st identifier).2 =
        .error (.requestError (server (viewReq st identifier)).status
          (server (viewReq st identifier)).reason (server (viewReq st identifier)).body) ↔
      ¬ ((server (viewReq st identifier)).status = 201 ∨
        (200 ≤ (server (viewReq st identifier)).status ∧
          (server (viewReq st identifier)).status < 300))) := by
  by_cases hs : isSuccessStatus (server (viewReq st identifier)).status = true
  · unfold viewFn
    rw [if_pos hs]
    exact ⟨iff_of_true rfl ((isSuccessStatus_iff _).mp hs),
      iff_of_false (by simp) (fun hn => hn ((isSuccessStatus_iff _).mp hs))⟩
  · unfold viewFn
    rw [if_neg hs]
    exact ⟨iff_of_false (by simp) (fun hr => hs ((isSuccessStatus_iff _).mpr hr)),
      iff_of_true rfl (fun hr => hs ((isSuccessStatus_iff _).mpr hr))⟩

theorem logoutFn_classify (server : Server) (st : ClientState) :
    ((logoutFn server st).2 = .ok ((server (logoutReq st)).body,
        setSessionId st (some (server (logoutReq st)).body)) ↔
      ((server (logoutReq st)).status = 201 ∨
        (200 ≤ (server (logoutReq st)).status ∧ (server (logoutReq st)).status < 300))) ∧
    ((logoutFn server st).2 =
        .error (.requestError (server (logoutReq st)).status
          (server (logoutReq st)).reason (server (logoutReq st)).body) ↔
      ¬ ((server (logoutReq st)).status = 201 ∨
        (200 ≤ (server (logoutReq st)).status ∧ (server (logoutReq st)).status < 300))) := by
  unfold logoutFn
  rw [show Request.opReq "GET".data "/logout".data (attachedCookie st) none = logoutReq st
    from rfl]
  by_cases hs : isSuccessStatus (server (logoutReq st)).status = true
  · rw [if_pos hs]
    exact ⟨iff_of_true rfl ((isSuccessStatus_iff _).mp hs),
      iff_of_false (by simp) (fun hn => hn ((isSuccessStatus_iff _).mp hs))⟩
  · rw [if_neg hs]
    exact ⟨iff_of_false (by simp) (fun hr => hs ((isSuccessStatus_iff _).mpr hr)),
      iff_of_true rfl (fun hr => hs ((isSuccessStatus_iff _).mpr hr))⟩

theorem runAuthedOp_classify (server : Server) (st st1 : ClientState)
    (lreqs : List Request) (m p : List Char) (b : Option (List Char))
    (tf : List Char → List Char)
    (hok : ensureSession server st = (lreqs, .ok st1)) :
    ((runAuthedOp server st m p b tf).2 =
        .ok (tf (server (Request.opReq m p (attachedCookie st1) b)).body, st1) ↔
      ((server (Request.opReq m p (attachedCookie st1) b)).status = 201 ∨
        (200 ≤ (server (Request.opReq m p (attachedCookie st1) b)).status ∧
          (server (Request.opReq m p (attachedCookie st1) b)).status < 300))) ∧
    ((runAuthedOp server st m p b tf).2 =
        .error (.requestError (server (Request.opReq m p (attachedCookie st1) b)).status
          (server (Request.opReq m p (attachedCookie st1) b)).reason
          (server (Request.opReq m p (attachedCookie st1) b)).body) ↔
      ¬ ((server (Request.opReq m p (attachedCookie st1) b)).status = 201 ∨
        (200 ≤ (server (Request.opReq m p (attachedCookie st1) b)).status ∧
          (server (Request.opReq m p (attachedCookie st1) b)).status < 300))) := by
  unfold runAuthedOp
  rw [hok]
  split
  · rename_i heq
    exact absurd heq (by simp)
  · rename_i heq
    simp only [Prod.mk.injEq, Except.ok.injEq] at heq
    obtain ⟨e1, e2⟩ := heq
    subst e1
    subst e2
    by_cases hs :
        isSuccessStatus (server (Request.opReq m p (attachedCookie st1) b)).status = true
    · rw [if_pos hs]
      exact ⟨iff_of_true rfl ((isSuccessStatus_iff _).mp hs),
        iff_of_false (by simp) (fun hn => hn ((isSuccessStatus_iff _).mp hs))⟩
    · rw [if_neg hs]
      exact ⟨iff_of_false (by simp) (fun hr => hs ((isSuccessStatus_iff _).mpr hr)),
        iff_of_true rfl (fun hr => hs ((isSuccessStatus_iff _).mpr hr))⟩

/-- C7: for every operation, a response whose status is 2xx (201 explicitly
included) is treated as success and never raises, while any other status
surfaces as a `RequestError` carrying the status code, reason phrase and
response body — stated for `view` and `logout` unconditionally, and for
`update`, `create`, `mint` and `delete` from any client state whose session
guard succeeded (otherwise no API request is issued at all, see C4); and
the client never retries: `view`, `login` and `logout` issue exactly one
request per call, and each mutating operation issues at most two (one
optional login exchange plus a single attempt). -/
theorem C7_http_failure_semantics (server : Server) (st st1 : ClientState)
    (lreqs : List Request) (identifier : List Char)
    (data : List (List Char × List Char))
    (dataOpt : Option (List (List Char × List Char)))
    (hok : ensureSession server st = (lreqs, .ok st1)) :
    ((viewFn server st identifier).2 = .ok ((server (viewReq st identifier)).body, st) ↔
      ((server (viewReq st identifier)).status = 201 ∨
        (200 ≤ (server (viewReq st identifier)).status ∧
          (server (viewReq st identifier)).status < 300))) ∧
    ((viewFn server st identifier).2 =
        .error (.requestError (server (viewReq st identifier)).status
          (server (viewReq st identifier)).reason (server (viewReq st identifier)).body) ↔
      ¬ ((server (viewReq st identifier)).status = 201 ∨
        (200 ≤ (server (viewReq st identifier)).status ∧
          (server (viewReq st identifier)).status < 300))) ∧
    ((logoutFn server st).2 = .ok ((server (logoutReq st)).body,
        setSessionId st (some (server (logoutReq st)).body)) ↔
      ((server (logoutReq st)).status = 201 ∨
        (200 ≤ (server (logoutReq st)).status ∧ (server (logoutReq st)).status < 300))) ∧
    ((logoutFn server st).2 =
        .error (.requestError (server (logoutReq st)).status
          (server (logoutReq st)).reason (server (logoutReq st)).body) ↔
      ¬ ((server (logoutReq st)).status = 201 ∨
        (200 ≤ (server (logoutReq st)).status ∧ (server (logoutReq st)).status < 300))) ∧
    ((updateFn server st identifier data).2 =
        .ok ((server (updateReq st1 identifier data)).body, st1) ↔
      ((server (updateReq st1 identifier data)).status = 201 ∨
        (200 ≤ (server (updateReq st1 identifier data)).status ∧
          (server (updateReq st1 identifier data)).status < 300))) ∧
    ((updateFn server st identifier data).2 =
        .error (.requestError (server (updateReq st1 identifier data)).status
          (server (updateReq st1 identifier data)).reason
          (server (updateReq st1 identifier data)).body) ↔
      ¬ ((server (updateReq st1 identifier data)).status = 201 ∨
        (200 ≤ (server (updateReq st1 identifier data)).status ∧
          (server (updateReq st1 identifier data)).status < 300))) ∧
    ((createFn server st identifier dataOpt).2 =
        .ok ((server (createReq st1 identifier dataOpt)).body, st1) ↔
      ((server (createReq st1 identifier dataOpt)).status = 201 ∨
        (200 ≤ (server (createReq st1 identifier dataOpt)).status ∧
          (server (createReq st1 identifier dataOpt)).status < 300))) ∧
    ((createFn server st identifier dataOpt).2 =
        .error (.requestError (server (createReq st1 identifier dataOpt)).status
          (server (createReq st1 identifier dataOpt)).reason
          (server (createReq st1 identifier dataOpt)).body) ↔
      ¬ ((server (createReq st1 identifier dataOpt)).status = 201 ∨
        (200 ≤ (server (createReq st1 identifier dataOpt)).status ∧
          (server (createReq st1 identifier dataOpt)).status < 300))) ∧
    ((mintFn server st identifier dataOpt).2 =
        .ok (mintTransform (server (mintReq st1 identifier dataOpt)).body, st1) ↔
      ((server (mintReq st1 identifier dataOpt)).status = 201 ∨
        (200 ≤ (server (mintReq st1 identifier dataOpt)).status ∧
          (server (mintReq st1 identifier dataOpt)).status < 300))) ∧
    ((mintFn server st identifier dataOpt).2 =
        .error (.requestError (server (mintReq st1 identifier dataOpt)).status
          (server (mintReq st1 identifier dataOpt)).reason
          (server (mintReq st1 identifier dataOpt)).body) ↔
      ¬ ((server (mintReq st1 identifier dataOpt)).status = 201 ∨
        (200 ≤ (server (mintReq st1 identifier dataOpt)).status ∧
          (server (mintReq st1 identifier dataOpt)).status < 300))) ∧
    ((deleteFn server st identifier).2 =
        .ok ((server (deleteReq st1 identifier)).body, st1) ↔
      ((server (deleteReq st1 identifier)).status = 201 ∨
        (200 ≤ (server (deleteReq st1 identifier)).status ∧
          (server (deleteReq st1 identifier)).status < 300))) ∧
    ((deleteFn server st identifier).2 =
        .error (.requestError (server (deleteReq st1 identifier)).status
          (server (deleteReq st1 identifier)).reason
          (server (deleteReq st1 identifier)).body) ↔
      ¬ ((server (deleteReq st1 identifier)).status = 201 ∨
        (200 ≤ (server (deleteReq st1 identifier)).status ∧
          (server (deleteReq st1 identifier)).status < 300))) ∧
    (viewFn server st identifier).1.length = 1 ∧
    (loginFn server st).1.length = 1 ∧
    (logoutFn server st).1.length = 1 ∧
    (updateFn server st identifier data).1.length ≤ 2 ∧
    (createFn server st identifier dataOpt).1.length ≤ 2 ∧
    (mintFn server st identifier dataOpt).1.length ≤ 2 ∧
    (deleteFn server st identifier).1.length ≤ 2 := by
  refine ⟨(viewFn_classify server st identifier).1, (viewFn_classify server st identifier).2,
    (logoutFn_classify server st).1, (logoutFn_classify server st).2,
    (runAuthedOp_classify server st st1 lreqs "POST".data ("/id/".data ++ identifier)
      (some (formatAnvlFromDict data)) id hok).1,
    (runAuthedOp_classify server st st1 lreqs "POST".data ("/id/".data ++ identifier)
      (some (formatAnvlFromDict data)) id hok).2,
    (runAuthedOp_classify server st st1 lreqs "PUT".data ("/id/".data ++ identifier)
      (anvlBody dataOpt) id hok).1,
    (runAuthedOp_classify server st st1 lreqs "PUT".data ("/id/".data ++ identifier)
      (anvlBody dataOpt) id hok).2,
    (runAuthedOp_classify server st st1 lreqs "POST".data ("/shoulder/".data ++ identifier)
      (anvlBody dataOpt) mintTransform hok).1,
    (runAuthedOp_classify server st st1 lreqs "POST".data ("/shoulder/".data ++ identifier)
      (anvlBody dataOpt) mintTransform hok).2,
    (runAuthedOp_classify server st st1 lreqs "DELETE".data ("/id/".data ++ identifier)
      none id hok).1,
    (runAuthedOp_classify server st st1 lreqs "DELETE".data ("/id/".data ++ identifier)
      none id hok).2,
    ?_, ?_, ?_, ?_, ?_, ?_, ?_⟩
  · unfold viewFn
    split <;> rfl
  · rfl
  · unfold logoutFn
    split <;> rfl
  · exact runAuthedOp_trace_len server st _ _ _ _
  · exact runAuthedOp_trace_len server st _ _ _ _
  · exact runAuthedOp_trace_len server st _ _ _ _
  · exact runAuthedOp_trace_len server st _ _ _ _

/-- Closed instance of `C7_http_failure_semantics` against the rejecting
server and the client holding a cached session (so the session guard
succeeds without a login exchange and every operation reaches its single
API attempt, which is answered with 401). -/
theorem C7_http_failure_semantics_witness :
    ((viewFn srvReject stWithSession "i".data).2 =
        .ok ((srvReject (viewReq stWithSession "i".data)).body, stWithSession) ↔
      ((srvReject (viewReq stWithSession "i".data)).status = 201 ∨
        (200 ≤ (srvReject (viewReq stWithSession "i".data)).status ∧
          (srvReject (viewReq stWithSession "i".data)).status < 300))) ∧
    ((viewFn srvReject stWithSession "i".data).2 =
        .error (.requestError (srvReject (viewReq stWithSession "i".data)).status
          (srvReject (viewReq stWithSession "i".data)).reason
          (srvReject (viewReq stWithSession "i".data)).body) ↔
      ¬ ((srvReject (viewReq stWithSession "i".data)).status = 201 ∨
        (200 ≤ (srvReject (viewReq stWithSession "i".data)).status ∧
          (srvReject (viewReq stWithSession "i".data)).status < 300))) ∧
    ((logoutFn srvReject stWithSession).2 =
        .ok ((srvReject (logoutReq stWithSession)).body,
          setSessionId stWithSession (some (srvReject (logoutReq stWithSession)).body)) ↔
      ((srvReject (logoutReq stWithSession)).status = 201 ∨
        (200 ≤ (srvReject (logoutReq stWithSession)).status ∧
          (srvReject (logoutReq stWithSession)).status < 300))) ∧
    ((logoutFn srvReject stWithSession).2 =
        .error (.requestError (srvReject (logoutReq stWithSession)).status
          (srvReject (logoutReq stWithSession)).reason
          (srvReject (logoutReq stWithSession)).body) ↔
      ¬ ((srvReject (logoutReq stWithSession)).status = 201 ∨
        (200 ≤ (srvReject (logoutReq stWithSession)).status ∧
          (srvReject (logoutReq stWithSession)).status < 300))) ∧
    ((updateFn srvReject stWithSession "i".data []).2 =
        .ok ((srvReject (updateReq stWithSession "i".data [])).body, stWithSession) ↔
      ((srvReject (updateReq stWithSession "i".data [])).status = 201 ∨
        (200 ≤ (srvReject (updateReq stWithSession "i".data [])).status ∧
          (srvReject (updateReq stWithSession "i".data [])).status < 300))) ∧
    ((updateFn srvReject stWithSession "i".data []).2 =
        .error (.requestError (srvReject (updateReq stWithSession "i".data [])).status
          (srvReject (updateReq stWithSession "i".data [])).reason
          (srvReject (updateReq stWithSession "i".data [])).body) ↔
      ¬ ((srvReject (updateReq stWithSession "i".data [])).status = 201 ∨
        (200 ≤ (srvReject (updateReq stWithSession "i".data [])).status ∧
          (srvReject (updateReq stWithSession "i".data [])).status < 300))) ∧
    ((createFn srvReject stWithSession "i".data none).2 =
        .ok ((srvReject (createReq stWithSession "i".data none)).body, stWithSession) ↔
      ((srvReject (createReq stWithSession "i".data none)).status = 201 ∨
        (200 ≤ (srvReject (createReq stWithSession "i".data none)).status ∧
          (srvReject (createReq stWithSession "i".data none)).status < 300))) ∧
    ((createFn srvReject stWithSession "i".data none).2 =
        .error (.requestError (srvReject (createReq stWithSession "i".data none)).status
          (srvReject (createReq stWithSession "i".data none)).reason
          (srvReject (createReq stWithSession "i".data none)).body) ↔
      ¬ ((srvReject (createReq stWithSession "i".data none)).status = 201 ∨
        (200 ≤ (srvReject (createReq stWithSession "i".data none)).status ∧
          (srvReject (createReq stWithSession "i".data none)).status < 300))) ∧
    ((mintFn srvReject stWithSession "i".data none).2 =
        .ok (mintTransform (srvReject (mintReq stWithSession "i".data none)).body,
          stWithSession) ↔
      ((srvReject (mintReq stWithSession "i".data none)).status = 201 ∨
        (200 ≤ (srvReject (mintReq stWithSession "i".data none)).status ∧
          (srvReject (mintReq stWithSession "i".data none)).status < 300))) ∧
    ((mintFn srvReject stWithSession "i".data none).2 =
        .error (.requestError (srvReject (mintReq stWithSession "i".data none)).status
          (srvReject (mintReq stWithSession "i".data none)).reason
          (srvReject (mintReq stWithSession "i".data none)).body) ↔
      ¬ ((srvReject (mintReq stWithSession "i".data none)).status = 201 ∨
        (200 ≤ (srvReject (mintReq stWithSession "i".data none)).status ∧
          (srvReject (mintReq stWithSession "i".data none)).status < 300))) ∧
    ((deleteFn srvReject stWithSession "i".data).2 =
        .ok ((srvReject (deleteReq stWithSession "i".data)).body, stWithSession) ↔
      ((srvReject (deleteReq stWithSession "i".data)).status = 201 ∨
        (200 ≤ (srvReject (deleteReq stWithSession "i".data)).status ∧
          (srvReject (deleteReq stWithSession "i".data)).status < 300))) ∧
    ((deleteFn srvReject stWithSession "i".data).2 =
        .error (.requestError (srvReject (deleteReq stWithSession "i".data)).status
          (srvReject (deleteReq stWithSession "i".data)).reason
          (srvReject (deleteReq stWithSession "i".data)).body) ↔
      ¬ ((srvReject (deleteReq stWithSession "i".data)).status = 201 ∨
        (200 ≤ (srvReject (deleteReq stWithSession "i".data)).status ∧
          (srvReject (deleteReq stWithSession "i".data)).status < 300))) ∧
    (viewFn srvReject stWithSession "i".data).1.length = 1 ∧
    (loginFn srvReject stWithSession).1.length = 1 ∧
    (logoutFn srvReject stWithSession).1.length = 1 ∧
    (updateFn srvReject stWithSession "i".data []).1.length ≤ 2 ∧
    (createFn srvReject stWithSession "i".data none).1.length ≤ 2 ∧
    (mintFn srvReject stWithSession "i".data none).1.length ≤ 2 ∧
    (deleteFn srvReject stWithSession "i".data).1.length ≤ 2 :=
  C7_http_failure_semantics srvReject stWithSession stWithSession [] "i".data [] none
    (by decide)
